import Mathlib

/-!
# Verification of the record service in `src/server.js`

A shallow embedding of the Express + MongoDB record service: the JavaScript
request handlers for `/api/status`, `/api/users`, `/api/pets` and the delete
routes are translated into pure Lean functions over an explicit store state,
and the spec's claims about them are proved or refuted.

JavaScript runtime values that flow through the handlers (request-body fields)
are modelled by `JSValue`: a missing key (`undefined`), a number (with `none`
standing for `NaN`), or a string.  Numbers are modelled by `ℚ`, which is exact
for every decimal literal the handlers can meet; the store's `ObjectId` is
modelled by a natural number assigned from a fresh-id counter, with its string
form being the decimal numeral.
-/

namespace Server

/-- JavaScript value restricted to the forms the request handlers inspect:
`undef` models a missing body key (`undefined`), `num none` models `NaN`,
`num (some q)` a finite number, `str s` a string. -/
inductive JSValue where
  | undef : JSValue
  | num : Option ℚ → JSValue
  | str : String → JSValue
deriving DecidableEq, Repr

/-- JavaScript `ToBoolean`, as used by the `!field` presence checks in the
handlers: `undefined`, `NaN`, `0` and `""` are falsy, everything else truthy. -/
def truthy : JSValue → Bool
  | .undef => false
  | .num none => false
  | .num (some q) => q != 0
  | .str s => s != ""

/-- Numeric value of a digit list read in base 10 (most significant first). -/
def digitsVal (cs : List Char) : ℕ :=
  cs.foldl (fun a c => a * 10 + (c.toNat - 48)) 0

/-- Core of JavaScript `StringToNumber` on an unsigned body: an optional
integer part, an optional `.` followed by an optional fraction part, with at
least one digit overall; `none` models `NaN` for any other shape. -/
def strToNumberCore (body : List Char) : Option ℚ :=
  let ip := body.takeWhile (fun c => c ≠ '.')
  match body.dropWhile (fun c => c ≠ '.') with
  | [] =>
      if ip ≠ [] ∧ ip.all Char.isDigit then some ((digitsVal ip : ℚ)) else none
  | _ :: fp =>
      if (ip ≠ [] ∨ fp ≠ []) ∧ ip.all Char.isDigit ∧ fp.all Char.isDigit then
        some ((digitsVal ip : ℚ) + (digitsVal fp : ℚ) / (10 : ℚ) ^ fp.length)
      else none

/-- Sign handling of `StringToNumber` on the character list of the string:
the empty string converts to `0`, an optional leading sign wraps the core. -/
def strToNumberAux : List Char → Option ℚ
  | [] => some 0
  | c :: r =>
      if c = '-' then (strToNumberCore r).map (fun q => -q)
      else if c = '+' then strToNumberCore r
      else strToNumberCore (c :: r)

/-- JavaScript `StringToNumber` (the coercion applied by `age < 0` and
`age > 50` when `age` is a string): the empty string converts to `0`, a signed
decimal numeral to its value, anything else to `NaN` (`none`).  Exponent forms
and surrounding whitespace do not occur in any claim and are not modelled. -/
def strToNumber (s : String) : Option ℚ :=
  strToNumberAux s.data

/-- JavaScript `ToNumber` of a handler value: `undefined ↦ NaN`, numbers are
themselves, strings via `strToNumber`. -/
def toNumber : JSValue → Option ℚ
  | .undef => none
  | .num q => q
  | .str s => strToNumber s

/-- The comparison `v < q` of the handler, where `q` is a number literal:
JavaScript coerces `v` to a number and any comparison with `NaN` is false. -/
def jsLtNum (v : JSValue) (q : ℚ) : Bool :=
  match toNumber v with
  | none => false
  | some a => a < q

/-- The comparison `v > q` of the handler, with the same `NaN` convention. -/
def jsGtNum (v : JSValue) (q : ℚ) : Bool :=
  match toNumber v with
  | none => false
  | some a => q < a

/-- `parseInt` on the character list of a string: an optional sign followed
by the longest digit prefix; no digit at all gives `NaN` (`none`). -/
def parseIntAux : List Char → Option ℤ
  | [] => none
  | c :: r =>
      let body := if c = '-' ∨ c = '+' then r else c :: r
      let ds := body.takeWhile Char.isDigit
      if ds = [] then none
      else if c = '-' then some (-(digitsVal ds : ℤ)) else some ((digitsVal ds : ℤ))

/-- `parseInt` on a string. -/
def parseIntStr (s : String) : Option ℤ :=
  parseIntAux s.data

/-- Truncation of a rational toward zero: the integer prefix `parseInt`
reads from a plain decimal rendering. -/
def jsTruncToInt (q : ℚ) : ℤ :=
  if q < 0 then -(Rat.floor (-q)) else Rat.floor q

/-- Fuel-bounded count of the multiplications by 10 needed to raise a
positive rational to at least 1.  Any fuel at least the eventual count gives
the same answer; the denominator of the rational is always sufficient fuel,
since a positive `n / d` is at least `1 / d` and `10 ^ d ≥ d`. -/
def scaleCount : ℕ → ℚ → ℕ
  | 0, _ => 0
  | n + 1, q => if 1 ≤ q then 0 else scaleCount n (q * 10) + 1

/-- Fuel-bounded scaling of a rational down by factors of 10 until it is
below 10. -/
def scaleDown : ℕ → ℚ → ℚ
  | 0, q => q
  | n + 1, q => if q < 10 then q else scaleDown n (q / 10)

/-- Integer part of the decimal mantissa of a positive rational: the value is
scaled by a power of ten into the interval from 1 to 10 and truncated.  This
is what `parseInt` reads from an exponentially rendered number such as
`"1.5e-7"` — the digit string before the mantissa's decimal point. -/
def leadingDigit (q : ℚ) : ℤ :=
  if q < 1 then jsTruncToInt (q * 10 ^ scaleCount q.den q)
  else jsTruncToInt (scaleDown q.num.natAbs q)

/-- `parseInt` applied to a positive finite number: JavaScript renders the
number as a string first.  `Number::toString` uses plain decimal — from which
`parseInt` recovers the truncation toward zero — unless the value is below
10⁻⁶ or at least 10²¹, in which case the rendering is exponential (such as
`"1e-7"` or `"1.5e+21"`) and `parseInt` stops at the mantissa, reading only
its integer part. -/
def jsParseIntPos (q : ℚ) : ℤ :=
  if q < 1 / 1000000 ∨ (10 : ℚ) ^ 21 ≤ q then leadingDigit q
  else jsTruncToInt q

/-- `parseInt` applied to a finite number, with the sign handled as in the
rendered string: `String(-x)` is `"-"` followed by `String(x)` for positive
`x`, and `String(0)` is `"0"`. -/
def jsParseIntNum (q : ℚ) : ℤ :=
  if q = 0 then 0
  else if q < 0 then -(jsParseIntPos (-q))
  else jsParseIntPos q

/-- `parseInt(age)` as used at the insert site: a number goes through its
string rendering (`jsParseIntNum`), a string through `parseIntStr`, and
`undefined`/`NaN` give `NaN`. -/
def jsParseInt : JSValue → Option ℤ
  | .undef => none
  | .num none => none
  | .num (some q) => some (jsParseIntNum q)
  | .str s => parseIntStr s

/-! ## Store state and documents

The two collections are lists of documents in insertion order; `nextId` is the
store's fresh-identifier supply modelling `ObjectId` generation. -/

/-- A document of the `users` collection, as built at the insert site of
`POST /api/users`: the four body fields verbatim plus the server-assigned
`_id` (`id`) and `created` timestamp. -/
structure UserRecord where
  id : ℕ
  name : JSValue
  email : JSValue
  phone : JSValue
  address : JSValue
  created : ℕ
deriving DecidableEq, Repr

/-- A document of the `pets` collection, as built at the insert site of
`POST /api/pets`: five body fields verbatim, `age` as the `parseInt` result
(`none` models a stored `NaN`), plus server-assigned `id` and `created`. -/
structure PetRecord where
  id : ℕ
  petName : JSValue
  species : JSValue
  breed : JSValue
  age : Option ℤ
  ownerName : JSValue
  ownerPhone : JSValue
  created : ℕ
deriving DecidableEq, Repr

/-- The persistent state of the document store. -/
structure DB where
  users : List UserRecord
  pets : List PetRecord
  nextId : ℕ
deriving DecidableEq, Repr

/-- The JSON envelope the CRUD handlers send: HTTP status (200 unless
`res.status(...)` was called), the `success` flag, and the optional
`message` / `error` / inserted-id fields. -/
structure Response where
  status : ℕ
  success : Bool
  message : Option String
  error : Option String
  insertedId : Option ℕ
deriving DecidableEq, Repr

/-- `res.status(code).json({success: false, error: msg})`. -/
def mkError (code : ℕ) (msg : String) : Response :=
  ⟨code, false, none, some msg, none⟩

/-- The request body of `POST /api/users`, as seen by the destructuring
`const {name, email, phone, address} = req.body`.  The `created` field records
any client-supplied `created` key; the handler never reads it. -/
structure UserBody where
  name : JSValue
  email : JSValue
  phone : JSValue
  address : JSValue
  created : JSValue
deriving DecidableEq, Repr

/-- The request body of `POST /api/pets`; again `created` records a
client-supplied key the handler never reads. -/
structure PetBody where
  petName : JSValue
  species : JSValue
  breed : JSValue
  age : JSValue
  ownerName : JSValue
  ownerPhone : JSValue
  created : JSValue
deriving DecidableEq, Repr

/-! ## Request handlers -/

/-- Handler of `POST /api/users` (src/server.js lines 71-116): presence check
on the four fields, duplicate-email lookup (`findOne({email})`), then insert
with server-assigned `created`. -/
def postUsers (db : DB) (b : UserBody) (now : ℕ) : Response × DB :=
  if !truthy b.name || !truthy b.email || !truthy b.phone || !truthy b.address then
    (mkError 400 "All fields are required", db)
  else if (db.users.find? (fun u => u.email == b.email)).isSome then
    (mkError 400 "Email already exists", db)
  else
    (⟨200, true, some "User added successfully", none, some db.nextId⟩,
     { db with
        users := db.users ++ [⟨db.nextId, b.name, b.email, b.phone, b.address, now⟩],
        nextId := db.nextId + 1 })

/-- Handler of `POST /api/pets` (src/server.js lines 154-200): presence check
on the six fields (`!age` also fires on the number 0), then the range check
`age < 0 || age > 50`, then insert storing `parseInt(age)` and a
server-assigned `created`. -/
def postPets (db : DB) (b : PetBody) (now : ℕ) : Response × DB :=
  if !truthy b.petName || !truthy b.species || !truthy b.breed || !truthy b.age ||
      !truthy b.ownerName || !truthy b.ownerPhone then
    (mkError 400 "All fields are required", db)
  else if jsLtNum b.age 0 || jsGtNum b.age 50 then
    (mkError 400 "Age must be between 0 and 50 years", db)
  else
    (⟨200, true, some "Pet added successfully", none, some db.nextId⟩,
     { db with
        pets := db.pets ++
          [⟨db.nextId, b.petName, b.species, b.breed, jsParseInt b.age,
            b.ownerName, b.ownerPhone, now⟩],
        nextId := db.nextId + 1 })

/-- `collection.deleteOne(filter)`: removes the first matching document and
reports the number of documents removed (0 or 1). -/
def deleteOne {α : Type} (p : α → Bool) : List α → List α × ℕ
  | [] => ([], 0)
  | x :: xs =>
      if p x then (xs, 1)
      else
        let r := deleteOne p xs
        (x :: r.1, r.2)

/-- Model of `new ObjectId(s)`: the store identifier is a natural number whose
canonical string form is its decimal numeral, standing in for the 24-character
hex form; `none` models the `BSONError` the constructor throws on a malformed
identifier string. -/
def parseObjectId (s : String) : Option ℕ :=
  if s.data ≠ [] ∧ s.data.all Char.isDigit then some (digitsVal s.data) else none

/-- Stand-in for the message of the `BSONError` thrown by `new ObjectId` on a
malformed identifier, which the catch-all turns into `error.message`. -/
def objectIdErrMsg : String := "input must be a 24 character hex string"

/-- Handler of `DELETE /api/users/:id` (src/server.js lines 119-136): a
malformed id makes `new ObjectId` throw, which the catch-all converts to a
500 response; otherwise `deleteOne` runs and `deletedCount === 1` decides
between 200 and 404. -/
def deleteUsers (db : DB) (idStr : String) : Response × DB :=
  match parseObjectId idStr with
  | none => (mkError 500 objectIdErrMsg, db)
  | some oid =>
      let r := deleteOne (fun u => u.id == oid) db.users
      if r.2 = 1 then
        (⟨200, true, some "User deleted successfully", none, none⟩,
         { db with users := r.1 })
      else (mkError 404 "User not found", { db with users := r.1 })

/-- Handler of `DELETE /api/pets/:id` (src/server.js lines 203-220), the same
shape as the user delete route. -/
def deletePets (db : DB) (idStr : String) : Response × DB :=
  match parseObjectId idStr with
  | none => (mkError 500 objectIdErrMsg, db)
  | some oid =>
      let r := deleteOne (fun p => p.id == oid) db.pets
      if r.2 = 1 then
        (⟨200, true, some "Pet deleted successfully", none, none⟩,
         { db with pets := r.1 })
      else (mkError 404 "Pet not found", { db with pets := r.1 })

/-! ## List handlers -/

/-- The sort key of `find({}).sort({created: -1})` on users: newest first. -/
def createdDescU (a b : UserRecord) : Prop := b.created ≤ a.created

instance : DecidableRel createdDescU := fun a b => Nat.decLe b.created a.created

instance : IsTotal UserRecord createdDescU := ⟨fun a b => Nat.le_total b.created a.created⟩

instance : IsTrans UserRecord createdDescU := ⟨fun _ _ _ h1 h2 => Nat.le_trans h2 h1⟩

/-- The sort key of `find({}).sort({created: -1})` on pets: newest first. -/
def createdDescP (a b : PetRecord) : Prop := b.created ≤ a.created

instance : DecidableRel createdDescP := fun a b => Nat.decLe b.created a.created

instance : IsTotal PetRecord createdDescP := ⟨fun a b => Nat.le_total b.created a.created⟩

instance : IsTrans PetRecord createdDescP := ⟨fun _ _ _ h1 h2 => Nat.le_trans h2 h1⟩

/-- Handler of `GET /api/users`: all documents sorted by `created`
descending, no filter. -/
def getUsers (db : DB) : List UserRecord :=
  db.users.insertionSort createdDescU

/-- Handler of `GET /api/pets`: all documents sorted by `created` descending,
no filter. -/
def getPets (db : DB) : List PetRecord :=
  db.pets.insertionSort createdDescP

/-! ## Status endpoint -/

/-- Outcome of `client.db(dbName).admin().ping()`: success, or a thrown error
carrying a message. -/
inductive PingResult where
  | ok : PingResult
  | fail : String → PingResult
deriving DecidableEq, Repr

/-- The JSON body of `GET /api/status` (always sent with `res.json`, hence
HTTP 200 either way). -/
structure StatusResponse where
  status : ℕ
  connected : Bool
  message : String
  errMsg : Option String
deriving DecidableEq, Repr

/-- Handler of `GET /api/status` (src/server.js lines 37-53): a successful
ping answers `connected: true`, a thrown ping error is caught and answered as
`connected: false` with the error message — never rethrown. -/
def getStatus : PingResult → StatusResponse
  | .ok => ⟨200, true, "MongoDB connection active", none⟩
  | .fail m => ⟨200, false, "MongoDB connection failed", some m⟩

/-! ## The whole API surface as a step function -/

/-- One incoming API request, with the nondeterministic inputs (ping outcome,
server clock) made explicit. -/
inductive Op where
  | status : PingResult → Op
  | listUsers : Op
  | listPets : Op
  | addUser : UserBody → ℕ → Op
  | addPet : PetBody → ℕ → Op
  | removeUser : String → Op
  | removePet : String → Op
deriving DecidableEq, Repr

/-- Effect of one request on the store: only the create and delete routes
touch it. -/
def applyOp (db : DB) : Op → DB
  | .status _ => db
  | .listUsers => db
  | .listPets => db
  | .addUser b now => (postUsers db b now).2
  | .addPet b now => (postPets db b now).2
  | .removeUser s => (deleteUsers db s).2
  | .removePet s => (deletePets db s).2

/-! ## Further definitions used by the claims -/

/-- A request-body field that is "missing or empty" in the spec's sense:
the key is absent (`undefined`) or holds the empty string. -/
def missingOrEmpty (v : JSValue) : Prop := v = .undef ∨ v = .str ""

/-- The empty store. -/
def emptyDB : DB := ⟨[], [], 0⟩

/-- The user body of the spec's duplicate-email scenario. -/
def annBody : UserBody :=
  ⟨.str "Ann", .str "a@x.com", .str "555", .str "1 Rd", .undef⟩

/-- A store already holding a user whose email is `"a@x.com"`. -/
def dbAnn : DB :=
  ⟨[⟨0, .str "Ann", .str "a@x.com", .str "555", .str "1 Rd", 1⟩], [], 1⟩

/-- A pet body with every field a valid non-empty string, parametrised by the
`age` value under scrutiny. -/
def rexBody (age : JSValue) : PetBody :=
  ⟨.str "Rex", .str "Dog", .str "Lab", age, .str "Ann", .str "555", .undef⟩

/-- A store holding one user and one pet, both with identifier 0. -/
def dbOne : DB :=
  ⟨[⟨0, .str "Ann", .str "a@x.com", .str "555", .str "1 Rd", 1⟩],
   [⟨0, .str "Rex", .str "Dog", .str "Lab", some 2, .str "Ann", .str "555", 1⟩], 1⟩

/-- Two users sharing the same `created` timestamp. -/
def userTieA : UserRecord := ⟨0, .str "a", .str "a@x", .str "1", .str "r", 5⟩

/-- Second user with the same `created` timestamp as `userTieA`. -/
def userTieB : UserRecord := ⟨1, .str "b", .str "b@x", .str "1", .str "r", 5⟩

/-- A store whose two users have equal `created` timestamps. -/
def dbTie : DB := ⟨[userTieA, userTieB], [], 2⟩

/-- A store whose two users have distinct `created` timestamps. -/
def dbTwo : DB :=
  ⟨[⟨0, .str "a", .str "a@x", .str "1", .str "r", 5⟩,
    ⟨1, .str "b", .str "b@x", .str "1", .str "r", 9⟩], [], 2⟩

/-! ## Sanity checks of the primitive embedding -/

example : strToNumber "12" = some 12 := by with_unfolding_all decide
example : strToNumber "" = some 0 := by with_unfolding_all decide
example : strToNumber "7.9" = some (79 / 10 : ℚ) := by with_unfolding_all decide
example : strToNumber "-3" = some (-3 : ℚ) := by with_unfolding_all decide
example : strToNumber "abc" = none := by with_unfolding_all decide
example : parseIntStr "12" = some 12 := by decide
example : parseIntStr "7.9" = some 7 := by decide
example : parseIntStr "-3" = some (-3) := by decide
example : jsTruncToInt (79 / 10) = 7 := by with_unfolding_all decide
example : jsParseIntNum (79 / 10) = 7 := by with_unfolding_all decide
example : jsParseIntNum (1 / 10000000) = 1 := by with_unfolding_all decide
example : jsParseIntNum (15 / 100000000) = 1 := by with_unfolding_all decide
example : jsParseIntNum (-(79 / 10)) = -7 := by with_unfolding_all decide
example : jsParseIntNum 50 = 50 := by with_unfolding_all decide
example : truthy (.num (some 0)) = false := by with_unfolding_all decide
example : truthy (.str "0") = true := by decide

/-! ## Lemmas about the embedded JavaScript primitives -/

/-- A value with a nonzero numeric coercion is truthy. -/
theorem truthy_of_toNumber_ne_zero (v : JSValue) (q : ℚ) (h : toNumber v = some q)
    (hq : q ≠ 0) : truthy v = true := by
  cases v with
  | undef => simp [toNumber] at h
  | num o =>
      cases o with
      | none => simp [toNumber] at h
      | some q' =>
          simp [toNumber] at h
          subst h
          simpa [truthy] using hq
  | str s =>
      by_cases hs : s = ""
      · subst hs
        have h0 : toNumber (JSValue.str "") = some 0 := by with_unfolding_all decide
        rw [h0] at h
        exact absurd (Option.some.inj h).symm hq
      · simp [truthy, hs]

/-- A string with a nonempty character list is truthy. -/
theorem truthy_str_of_ne_nil (s : String) (h : s.data ≠ []) : truthy (.str s) = true := by
  have hs : s ≠ "" := by
    intro e
    rw [e] at h
    exact h rfl
  simp [truthy, hs]

/-- A digit is none of the sign, dot and minus punctuation characters. -/
theorem ne_of_isDigit (c : Char) (h : c.isDigit = true) (d : Char)
    (hd : d.isDigit = false) : c ≠ d := by
  intro e
  rw [e, hd] at h
  exact Bool.false_ne_true h

/-- On a nonempty all-digit string, `StringToNumber` yields the base-10
value. -/
theorem strToNumber_digits (s : String) (h1 : s.data ≠ [])
    (h2 : s.data.all Char.isDigit = true) :
    strToNumber s = some ((digitsVal s.data : ℚ)) := by
  unfold strToNumber
  cases hd : s.data with
  | nil => exact absurd hd h1
  | cons c r =>
      have hall : ∀ x ∈ c :: r, x.isDigit = true := by
        rw [hd] at h2
        exact List.all_eq_true.mp h2
      have hc : c.isDigit = true := hall c (List.mem_cons_self c r)
      simp only [strToNumberAux]
      rw [if_neg (ne_of_isDigit c hc '-' (by decide)),
          if_neg (ne_of_isDigit c hc '+' (by decide))]
      unfold strToNumberCore
      have hnd : ∀ x ∈ c :: r, (fun y => decide (y ≠ '.')) x = true := by
        intro x hx
        simpa using ne_of_isDigit x (hall x hx) '.' (by decide)
      rw [List.dropWhile_eq_nil_iff.mpr hnd, List.takeWhile_eq_self_iff.mpr hnd]
      have hr : ∀ x ∈ r, x.isDigit = true := fun x hx => hall x (List.mem_cons_of_mem c hx)
      simp [hall, hc]
      exact hr

/-- On a nonempty all-digit string, `parseInt` yields the base-10 value. -/
theorem parseIntStr_digits (s : String) (h1 : s.data ≠ [])
    (h2 : s.data.all Char.isDigit = true) :
    parseIntStr s = some ((digitsVal s.data : ℤ)) := by
  unfold parseIntStr
  cases hd : s.data with
  | nil => exact absurd hd h1
  | cons c r =>
      have hall : ∀ x ∈ c :: r, x.isDigit = true := by
        rw [hd] at h2
        exact List.all_eq_true.mp h2
      have hc : c.isDigit = true := hall c (List.mem_cons_self c r)
      have hcm : ¬(c = '-' ∨ c = '+') := by
        rintro (e | e)
        · exact ne_of_isDigit c hc '-' (by decide) e
        · exact ne_of_isDigit c hc '+' (by decide) e
      simp only [parseIntAux]
      rw [if_neg hcm]
      rw [List.takeWhile_eq_self_iff.mpr hall]
      rw [if_neg (by simp : ¬(c :: r = []))]
      rw [if_neg (fun e => hcm (Or.inl e))]

/-- `deleteOne` with a filter matching nothing removes nothing. -/
theorem deleteOne_of_none {α : Type} (p : α → Bool) :
    ∀ l : List α, (∀ x ∈ l, p x = false) → deleteOne p l = (l, 0)
  | [], _ => rfl
  | x :: xs, h => by
      have hx : p x = false := h x (List.mem_cons_self x xs)
      have ih := deleteOne_of_none p xs (fun y hy => h y (List.mem_cons_of_mem x hy))
      simp [deleteOne, hx, ih]

/-- Everything left after `deleteOne` was in the collection before. -/
theorem mem_of_mem_deleteOne {α : Type} (p : α → Bool) :
    ∀ (l : List α) (x : α), x ∈ (deleteOne p l).1 → x ∈ l
  | [], x, h => by simp [deleteOne] at h
  | y :: ys, x, h => by
      by_cases hy : p y = true
      · rw [deleteOne, if_pos hy] at h
        exact List.mem_cons_of_mem y h
      · rw [deleteOne, if_neg hy] at h
        rcases List.mem_cons.mp h with h' | h'
        · exact h' ▸ List.mem_cons_self x ys
        · exact List.mem_cons_of_mem y (mem_of_mem_deleteOne p ys x h')

/-! ## Lemmas about the request handlers -/

/-- A falsy field makes `POST /api/users` answer the missing-fields error. -/
theorem postUsers_missing (db : DB) (b : UserBody) (now : ℕ)
    (h : truthy b.name = false ∨ truthy b.email = false ∨ truthy b.phone = false ∨
      truthy b.address = false) :
    postUsers db b now = (mkError 400 "All fields are required", db) := by
  rcases h with h | h | h | h <;> simp [postUsers, h]

/-- A falsy field makes `POST /api/pets` answer the missing-fields error. -/
theorem postPets_missing (db : DB) (b : PetBody) (now : ℕ)
    (h : truthy b.petName = false ∨ truthy b.species = false ∨ truthy b.breed = false ∨
      truthy b.age = false ∨ truthy b.ownerName = false ∨ truthy b.ownerPhone = false) :
    postPets db b now = (mkError 400 "All fields are required", db) := by
  rcases h with h | h | h | h | h | h <;> simp [postPets, h]

/-- With all four fields truthy and a stored user carrying the same email,
`POST /api/users` answers the duplicate-email error and leaves the store
unchanged. -/
theorem postUsers_duplicate (db : DB) (b : UserBody) (now : ℕ)
    (hn : truthy b.name = true) (he : truthy b.email = true) (hp : truthy b.phone = true)
    (ha : truthy b.address = true) (hdup : ∃ u ∈ db.users, u.email = b.email) :
    postUsers db b now = (mkError 400 "Email already exists", db) := by
  have hfind : (db.users.find? (fun u => u.email == b.email)).isSome = true := by
    rw [List.find?_isSome]
    obtain ⟨u, hu, he'⟩ := hdup
    exact ⟨u, hu, by simp [he']⟩
  simp [postUsers, hn, he, hp, ha, hfind]

/-- With all four fields truthy and no stored user carrying the email,
`POST /api/users` inserts the new document with server-assigned id and
`created`. -/
theorem postUsers_insert (db : DB) (b : UserBody) (now : ℕ)
    (hn : truthy b.name = true) (he : truthy b.email = true) (hp : truthy b.phone = true)
    (ha : truthy b.address = true)
    (hfind : (db.users.find? (fun u => u.email == b.email)).isSome = false) :
    postUsers db b now =
      (⟨200, true, some "User added successfully", none, some db.nextId⟩,
       { db with
          users := db.users ++ [⟨db.nextId, b.name, b.email, b.phone, b.address, now⟩],
          nextId := db.nextId + 1 }) := by
  simp [postUsers, hn, he, hp, ha, hfind]

/-- A successful `POST /api/users` means every validation passed and the
response and state are exactly the insert outcome. -/
theorem postUsers_success_spec (db : DB) (b : UserBody) (now : ℕ)
    (h : (postUsers db b now).1.success = true) :
    truthy b.name = true ∧ truthy b.email = true ∧ truthy b.phone = true ∧
    truthy b.address = true ∧
    postUsers db b now =
      (⟨200, true, some "User added successfully", none, some db.nextId⟩,
       { db with
          users := db.users ++ [⟨db.nextId, b.name, b.email, b.phone, b.address, now⟩],
          nextId := db.nextId + 1 }) := by
  by_cases h1 : (!truthy b.name || !truthy b.email || !truthy b.phone ||
      !truthy b.address) = true
  · simp [postUsers, h1, mkError] at h
  · have h1' : (!truthy b.name || !truthy b.email || !truthy b.phone ||
        !truthy b.address) = false := by simpa using h1
    have hf : truthy b.name = true ∧ truthy b.email = true ∧ truthy b.phone = true ∧
        truthy b.address = true := by simpa [and_assoc] using h1'
    by_cases h2 : (db.users.find? (fun u => u.email == b.email)).isSome = true
    · simp [postUsers, h1', h2, mkError] at h
    · have h2' : (db.users.find? (fun u => u.email == b.email)).isSome = false := by
        simpa using h2
      exact ⟨hf.1, hf.2.1, hf.2.2.1, hf.2.2.2,
        postUsers_insert db b now hf.1 hf.2.1 hf.2.2.1 hf.2.2.2 h2'⟩

/-- With all six fields truthy and the range guard false, `POST /api/pets`
inserts the new document, storing `parseInt(age)` and a server-assigned id
and `created`. -/
theorem postPets_insert (db : DB) (b : PetBody) (now : ℕ)
    (h1 : truthy b.petName = true) (h2 : truthy b.species = true)
    (h3 : truthy b.breed = true) (h4 : truthy b.age = true)
    (h5 : truthy b.ownerName = true) (h6 : truthy b.ownerPhone = true)
    (hrange : (jsLtNum b.age 0 || jsGtNum b.age 50) = false) :
    postPets db b now =
      (⟨200, true, some "Pet added successfully", none, some db.nextId⟩,
       { db with
          pets := db.pets ++
            [⟨db.nextId, b.petName, b.species, b.breed, jsParseInt b.age,
              b.ownerName, b.ownerPhone, now⟩],
          nextId := db.nextId + 1 }) := by
  simp [postPets, h1, h2, h3, h4, h5, h6, hrange]

/-- With the other five fields truthy and `age` coercing to a number outside
the inclusive range, `POST /api/pets` answers the age-range error and leaves
the store unchanged. -/
theorem postPets_out_of_range (db : DB) (b : PetBody) (now : ℕ)
    (h1 : truthy b.petName = true) (h2 : truthy b.species = true)
    (h3 : truthy b.breed = true) (h5 : truthy b.ownerName = true)
    (h6 : truthy b.ownerPhone = true) (q : ℚ) (hq : toNumber b.age = some q)
    (hout : q < 0 ∨ 50 < q) :
    postPets db b now = (mkError 400 "Age must be between 0 and 50 years", db) := by
  have hq0 : q ≠ 0 := by
    rcases hout with h | h
    · exact ne_of_lt h
    · exact ne_of_gt (lt_trans (by norm_num) h)
  have h4 : truthy b.age = true := truthy_of_toNumber_ne_zero b.age q hq hq0
  have hcond : (jsLtNum b.age 0 || jsGtNum b.age 50) = true := by
    rcases hout with h | h
    · have hlt : jsLtNum b.age 0 = true := by simp [jsLtNum, hq, h]
      simp [hlt]
    · have hgt : jsGtNum b.age 50 = true := by simp [jsGtNum, hq, h]
      simp [hgt]
  simp [postPets, h1, h2, h3, h4, h5, h6, hcond]

/-- A successful `POST /api/pets` means every validation passed and the
response and state are exactly the insert outcome. -/
theorem postPets_success_spec (db : DB) (b : PetBody) (now : ℕ)
    (h : (postPets db b now).1.success = true) :
    truthy b.petName = true ∧ truthy b.species = true ∧ truthy b.breed = true ∧
    truthy b.age = true ∧ truthy b.ownerName = true ∧ truthy b.ownerPhone = true ∧
    (jsLtNum b.age 0 || jsGtNum b.age 50) = false ∧
    postPets db b now =
      (⟨200, true, some "Pet added successfully", none, some db.nextId⟩,
       { db with
          pets := db.pets ++
            [⟨db.nextId, b.petName, b.species, b.breed, jsParseInt b.age,
              b.ownerName, b.ownerPhone, now⟩],
          nextId := db.nextId + 1 }) := by
  by_cases h1 : (!truthy b.petName || !truthy b.species || !truthy b.breed ||
      !truthy b.age || !truthy b.ownerName || !truthy b.ownerPhone) = true
  · simp [postPets, h1, mkError] at h
  · have h1' : (!truthy b.petName || !truthy b.species || !truthy b.breed ||
        !truthy b.age || !truthy b.ownerName || !truthy b.ownerPhone) = false := by
      simpa using h1
    have hf : truthy b.petName = true ∧ truthy b.species = true ∧ truthy b.breed = true ∧
        truthy b.age = true ∧ truthy b.ownerName = true ∧ truthy b.ownerPhone = true := by
      simpa [and_assoc] using h1'
    by_cases h2 : (jsLtNum b.age 0 || jsGtNum b.age 50) = true
    · simp [postPets, h1', h2, mkError] at h
    · have h2' : (jsLtNum b.age 0 || jsGtNum b.age 50) = false := by simpa using h2
      exact ⟨hf.1, hf.2.1, hf.2.2.1, hf.2.2.2.1, hf.2.2.2.2.1, hf.2.2.2.2.2, h2',
        postPets_insert db b now hf.1 hf.2.1 hf.2.2.1 hf.2.2.2.1 hf.2.2.2.2.1
          hf.2.2.2.2.2 h2'⟩

/-- `POST /api/users` either leaves the store unchanged or appends exactly
the new document. -/
theorem postUsers_state_cases (db : DB) (b : UserBody) (now : ℕ) :
    (postUsers db b now).2 = db ∨
    (postUsers db b now).2 =
      { db with
        users := db.users ++ [⟨db.nextId, b.name, b.email, b.phone, b.address, now⟩],
        nextId := db.nextId + 1 } := by
  unfold postUsers
  split
  · exact Or.inl rfl
  · split
    · exact Or.inl rfl
    · exact Or.inr rfl

/-- `POST /api/pets` either leaves the store unchanged or appends exactly
the new document. -/
theorem postPets_state_cases (db : DB) (b : PetBody) (now : ℕ) :
    (postPets db b now).2 = db ∨
    (postPets db b now).2 =
      { db with
        pets := db.pets ++
          [⟨db.nextId, b.petName, b.species, b.breed, jsParseInt b.age,
            b.ownerName, b.ownerPhone, now⟩],
        nextId := db.nextId + 1 } := by
  unfold postPets
  split
  · exact Or.inl rfl
  · split
    · exact Or.inl rfl
    · exact Or.inr rfl

/-- The user delete route never touches the pets collection, and every user
document still stored afterwards was stored before. -/
theorem deleteUsers_state (db : DB) (s : String) :
    (deleteUsers db s).2.pets = db.pets ∧
    ∀ u ∈ (deleteUsers db s).2.users, u ∈ db.users := by
  unfold deleteUsers
  split
  · exact ⟨rfl, fun u hu => hu⟩
  · dsimp only
    split
    · exact ⟨rfl, fun u hu => mem_of_mem_deleteOne _ _ u hu⟩
    · exact ⟨rfl, fun u hu => mem_of_mem_deleteOne _ _ u hu⟩

/-- The pet delete route never touches the users collection, and every pet
document still stored afterwards was stored before. -/
theorem deletePets_state (db : DB) (s : String) :
    (deletePets db s).2.users = db.users ∧
    ∀ p ∈ (deletePets db s).2.pets, p ∈ db.pets := by
  unfold deletePets
  split
  · exact ⟨rfl, fun p hp => hp⟩
  · dsimp only
    split
    · exact ⟨rfl, fun p hp => mem_of_mem_deleteOne _ _ p hp⟩
    · exact ⟨rfl, fun p hp => mem_of_mem_deleteOne _ _ p hp⟩

/-- A field that is missing or empty is falsy. -/
theorem truthy_false_of_missingOrEmpty (v : JSValue) (h : missingOrEmpty v) :
    truthy v = false := by
  rcases h with h | h <;> subst h <;> rfl

/-! ## Claim theorems -/

/-- C6: the Status operation never propagates an exception: for every outcome
of the liveness ping it returns a JSON response with HTTP status 200 (never an
HTTP error status), whose `connected` flag is true exactly when the ping
succeeded, together with a nonempty human-readable message. -/
theorem c6_status_never_throws :
    ∀ p : PingResult,
      (getStatus p).status = 200 ∧
      ((getStatus p).connected = true ↔ p = .ok) ∧
      (getStatus p).message ≠ "" := by
  intro p
  cases p with
  | ok => exact ⟨rfl, by simp [getStatus], by decide⟩
  | fail m =>
      exact ⟨rfl, by simp [getStatus],
        by show "MongoDB connection failed" ≠ ""; decide⟩

/-- C3: a CreateUser request with all four fields present and non-empty whose
email equals the email of an existing user record is rejected with HTTP 400
and error "Email already exists" and the store is unchanged; in particular,
repeating an identical successful POST /api/users yields that 400 response
and leaves the store as it was after the first request. -/
theorem c3_duplicate_email :
    (∀ (db : DB) (b : UserBody) (now : ℕ),
        truthy b.name = true → truthy b.email = true → truthy b.phone = true →
        truthy b.address = true → (∃ u ∈ db.users, u.email = b.email) →
        postUsers db b now = (mkError 400 "Email already exists", db)) ∧
    (∀ (db : DB) (b : UserBody) (now1 now2 : ℕ),
        (postUsers db b now1).1.success = true →
        postUsers (postUsers db b now1).2 b now2 =
          (mkError 400 "Email already exists", (postUsers db b now1).2)) := by
  constructor
  · exact fun db b now hn he hp ha hdup => postUsers_duplicate db b now hn he hp ha hdup
  · intro db b now1 now2 h
    obtain ⟨hn, he, hp, ha, heq⟩ := postUsers_success_spec db b now1 h
    apply postUsers_duplicate _ b now2 hn he hp ha
    rw [heq]
    exact ⟨⟨db.nextId, b.name, b.email, b.phone, b.address, now1⟩,
      List.mem_append_right _ (List.mem_cons_self _ _), rfl⟩

/-- C3 witness: the spec scenario run concretely — the first POST of Ann
succeeds, the identical repeat is answered 400 "Email already exists", and
the collection stays as after the first request. -/
theorem c3_witness :
    (postUsers emptyDB annBody 1).1.success = true ∧
    postUsers (postUsers emptyDB annBody 1).2 annBody 2 =
      (mkError 400 "Email already exists", (postUsers emptyDB annBody 1).2) := by
  refine ⟨by with_unfolding_all decide, ?_⟩
  exact c3_duplicate_email.2 emptyDB annBody 1 2 (by with_unfolding_all decide)

/-- C4: a CreateUser or CreatePet request with some required field missing or
empty is rejected with HTTP 400 "All fields are required" and the store is
not mutated; the presence check precedes the duplicate-email check, so a
request with both a missing field and a duplicate email still gets the
missing-fields error. -/
theorem c4_missing_fields :
    (∀ (db : DB) (b : UserBody) (now : ℕ),
        (missingOrEmpty b.name ∨ missingOrEmpty b.email ∨ missingOrEmpty b.phone ∨
          missingOrEmpty b.address) →
        postUsers db b now = (mkError 400 "All fields are required", db)) ∧
    (∀ (db : DB) (b : UserBody) (now : ℕ),
        (missingOrEmpty b.name ∨ missingOrEmpty b.email ∨ missingOrEmpty b.phone ∨
          missingOrEmpty b.address) → (∃ u ∈ db.users, u.email = b.email) →
        postUsers db b now = (mkError 400 "All fields are required", db)) ∧
    (∀ (db : DB) (b : PetBody) (now : ℕ),
        (missingOrEmpty b.petName ∨ missingOrEmpty b.species ∨ missingOrEmpty b.breed ∨
          missingOrEmpty b.age ∨ missingOrEmpty b.ownerName ∨
          missingOrEmpty b.ownerPhone) →
        postPets db b now = (mkError 400 "All fields are required", db)) := by
  refine ⟨?_, ?_, ?_⟩
  · intro db b now h
    apply postUsers_missing
    rcases h with h | h | h | h
    · exact Or.inl (truthy_false_of_missingOrEmpty _ h)
    · exact Or.inr (Or.inl (truthy_false_of_missingOrEmpty _ h))
    · exact Or.inr (Or.inr (Or.inl (truthy_false_of_missingOrEmpty _ h)))
    · exact Or.inr (Or.inr (Or.inr (truthy_false_of_missingOrEmpty _ h)))
  · intro db b now h _
    apply postUsers_missing
    rcases h with h | h | h | h
    · exact Or.inl (truthy_false_of_missingOrEmpty _ h)
    · exact Or.inr (Or.inl (truthy_false_of_missingOrEmpty _ h))
    · exact Or.inr (Or.inr (Or.inl (truthy_false_of_missingOrEmpty _ h)))
    · exact Or.inr (Or.inr (Or.inr (truthy_false_of_missingOrEmpty _ h)))
  · intro db b now h
    apply postPets_missing
    rcases h with h | h | h | h | h | h
    · exact Or.inl (truthy_false_of_missingOrEmpty _ h)
    · exact Or.inr (Or.inl (truthy_false_of_missingOrEmpty _ h))
    · exact Or.inr (Or.inr (Or.inl (truthy_false_of_missingOrEmpty _ h)))
    · exact Or.inr (Or.inr (Or.inr (Or.inl (truthy_false_of_missingOrEmpty _ h))))
    · exact Or.inr (Or.inr (Or.inr (Or.inr (Or.inl (truthy_false_of_missingOrEmpty _ h)))))
    · exact Or.inr (Or.inr (Or.inr (Or.inr (Or.inr (truthy_false_of_missingOrEmpty _ h)))))

/-- C4 witness: a user body missing its name on a store already holding the
duplicate email gets the missing-fields error, not the duplicate error, and
a pet body with an empty species is rejected the same way. -/
theorem c4_witness :
    postUsers dbAnn ⟨.undef, .str "a@x.com", .str "555", .str "1 Rd", .undef⟩ 3 =
      (mkError 400 "All fields are required", dbAnn) ∧
    postPets emptyDB ⟨.str "Rex", .str "", .str "Lab", .num (some 3), .str "Ann",
        .str "555", .undef⟩ 3 =
      (mkError 400 "All fields are required", emptyDB) := by
  constructor
  · exact c4_missing_fields.2.1 dbAnn _ 3 (Or.inl (Or.inl rfl))
      (by with_unfolding_all decide)
  · exact c4_missing_fields.2.2 emptyDB _ 3 (Or.inr (Or.inl (Or.inr rfl)))

/-- C1 counterexample: a CreatePet request with all six fields supplied and
valid except that `age` is the number 0 — the claimed accepted boundary — is
in fact rejected with the missing-fields error (the `!age` presence check
treats the number 0 as falsy) and nothing is inserted. -/
theorem c1_counterexample :
    (postPets emptyDB (rexBody (.num (some 0))) 3).1 =
      mkError 400 "All fields are required" ∧
    (postPets emptyDB (rexBody (.num (some 0))) 3).2 = emptyDB := by
  with_unfolding_all decide

/-- C1 (amended): with the other five fields non-empty, an `age` whose
numeric coercion lies outside the inclusive range 0–50 is rejected with HTTP
400 "Age must be between 0 and 50 years" and nothing is inserted; the
boundary 50, and the boundary 0 when supplied as the non-empty string "0",
are accepted and a record is inserted; but `age` supplied as the number 0 is
falsy and is rejected by the field-presence check as "All fields are
required". -/
theorem c1_age_range :
    (∀ (db : DB) (b : PetBody) (now : ℕ) (q : ℚ),
        truthy b.petName = true → truthy b.species = true → truthy b.breed = true →
        truthy b.ownerName = true → truthy b.ownerPhone = true →
        toNumber b.age = some q → (q < 0 ∨ 50 < q) →
        postPets db b now = (mkError 400 "Age must be between 0 and 50 years", db)) ∧
    (∀ (db : DB) (b : PetBody) (now : ℕ),
        truthy b.petName = true → truthy b.species = true → truthy b.breed = true →
        truthy b.ownerName = true → truthy b.ownerPhone = true →
        b.age = .num (some 50) →
        postPets db b now =
          (⟨200, true, some "Pet added successfully", none, some db.nextId⟩,
           { db with
              pets := db.pets ++ [⟨db.nextId, b.petName, b.species, b.breed,
                some 50, b.ownerName, b.ownerPhone, now⟩],
              nextId := db.nextId + 1 })) ∧
    (∀ (db : DB) (b : PetBody) (now : ℕ),
        truthy b.petName = true → truthy b.species = true → truthy b.breed = true →
        truthy b.ownerName = true → truthy b.ownerPhone = true →
        b.age = .str "0" →
        postPets db b now =
          (⟨200, true, some "Pet added successfully", none, some db.nextId⟩,
           { db with
              pets := db.pets ++ [⟨db.nextId, b.petName, b.species, b.breed,
                some 0, b.ownerName, b.ownerPhone, now⟩],
              nextId := db.nextId + 1 })) ∧
    (∀ (db : DB) (b : PetBody) (now : ℕ),
        b.age = .num (some 0) →
        postPets db b now = (mkError 400 "All fields are required", db)) := by
  refine ⟨?_, ?_, ?_, ?_⟩
  · intro db b now q h1 h2 h3 h5 h6 hq hout
    exact postPets_out_of_range db b now h1 h2 h3 h5 h6 q hq hout
  · intro db b now h1 h2 h3 h5 h6 hage
    have h4 : truthy b.age = true := by rw [hage]; with_unfolding_all decide
    have hrange : (jsLtNum b.age 0 || jsGtNum b.age 50) = false := by
      rw [hage]; with_unfolding_all decide
    have hparse : jsParseInt b.age = some 50 := by
      rw [hage]; with_unfolding_all decide
    rw [postPets_insert db b now h1 h2 h3 h4 h5 h6 hrange, hparse]
  · intro db b now h1 h2 h3 h5 h6 hage
    have h4 : truthy b.age = true := by rw [hage]; decide
    have hrange : (jsLtNum b.age 0 || jsGtNum b.age 50) = false := by
      rw [hage]; with_unfolding_all decide
    have hparse : jsParseInt b.age = some 0 := by
      rw [hage]; decide
    rw [postPets_insert db b now h1 h2 h3 h4 h5 h6 hrange, hparse]
  · intro db b now hage
    apply postPets_missing
    refine Or.inr (Or.inr (Or.inr (Or.inl ?_)))
    rw [hage]
    with_unfolding_all decide

/-- C1 witness: the amended claim exercised concretely — age 60 is rejected
with the range error, age 50 and age "0" are accepted and inserted, and age
supplied as the number 0 gets the missing-fields error. -/
theorem c1_witness :
    postPets emptyDB (rexBody (.num (some 60))) 3 =
      (mkError 400 "Age must be between 0 and 50 years", emptyDB) ∧
    postPets emptyDB (rexBody (.num (some 50))) 3 =
      (⟨200, true, some "Pet added successfully", none, some 0⟩,
       ⟨[], [⟨0, .str "Rex", .str "Dog", .str "Lab", some 50, .str "Ann",
         .str "555", 3⟩], 1⟩) ∧
    postPets emptyDB (rexBody (.str "0")) 3 =
      (⟨200, true, some "Pet added successfully", none, some 0⟩,
       ⟨[], [⟨0, .str "Rex", .str "Dog", .str "Lab", some 0, .str "Ann",
         .str "555", 3⟩], 1⟩) ∧
    postPets emptyDB (rexBody (.num (some 0))) 3 =
      (mkError 400 "All fields are required", emptyDB) := by
  refine ⟨?_, ?_, ?_, ?_⟩
  · exact c1_age_range.1 emptyDB (rexBody (.num (some 60))) 3 60 (by decide)
      (by decide) (by decide) (by decide) (by decide)
      (by with_unfolding_all decide) (Or.inr (by with_unfolding_all decide))
  · exact c1_age_range.2.1 emptyDB (rexBody (.num (some 50))) 3 (by decide)
      (by decide) (by decide) (by decide) (by decide) rfl
  · exact c1_age_range.2.2.1 emptyDB (rexBody (.str "0")) 3 (by decide)
      (by decide) (by decide) (by decide) (by decide) rfl
  · exact c1_age_range.2.2.2 emptyDB (rexBody (.num (some 0))) 3 rfl

/-- C2 counterexample: deleting with the malformed identifier "zzz" — which
fails to parse into the store's native identifier form — is answered with
HTTP 500 (the thrown parse error reaches the catch-all), not the claimed 404,
on both delete routes. -/
theorem c2_counterexample :
    parseObjectId "zzz" = none ∧
    (deleteUsers dbOne "zzz").1.status = 500 ∧
    (deleteUsers dbOne "zzz").1.status ≠ 404 ∧
    (deletePets dbOne "zzz").1.status = 500 ∧
    (deletePets dbOne "zzz").1.status ≠ 404 := by
  with_unfolding_all decide

/-- C2 (amended): a delete call whose identifier string fails to parse is
answered with HTTP 500 carrying the parse error (the `ObjectId` constructor
throws and the catch-all converts it), not 404; an identifier that parses but
matches no record — including one already deleted — is answered 404 with the
not-found error and the store unchanged; and the call reports success exactly
when the store removed one record. -/
theorem c2_delete_not_found :
    (∀ (db : DB) (s : String), parseObjectId s = none →
        deleteUsers db s = (mkError 500 objectIdErrMsg, db) ∧
        deletePets db s = (mkError 500 objectIdErrMsg, db)) ∧
    (∀ (db : DB) (s : String) (oid : ℕ), parseObjectId s = some oid →
        (∀ u ∈ db.users, u.id ≠ oid) →
        deleteUsers db s = (mkError 404 "User not found", db)) ∧
    (∀ (db : DB) (s : String) (oid : ℕ), parseObjectId s = some oid →
        (∀ p ∈ db.pets, p.id ≠ oid) →
        deletePets db s = (mkError 404 "Pet not found", db)) ∧
    (∀ (db : DB) (s : String),
        ((deleteUsers db s).1.success = true ↔
          ∃ oid, parseObjectId s = some oid ∧
            (deleteOne (fun u => u.id == oid) db.users).2 = 1)) ∧
    (∀ (db : DB) (s : String),
        ((deletePets db s).1.success = true ↔
          ∃ oid, parseObjectId s = some oid ∧
            (deleteOne (fun p => p.id == oid) db.pets).2 = 1)) := by
  refine ⟨?_, ?_, ?_, ?_, ?_⟩
  · intro db s h
    exact ⟨by simp [deleteUsers, h], by simp [deletePets, h]⟩
  · intro db s oid h hmem
    have hnone : ∀ u ∈ db.users, (fun u : UserRecord => u.id == oid) u = false := by
      intro u hu
      simpa using hmem u hu
    simp [deleteUsers, h, deleteOne_of_none _ _ hnone]
  · intro db s oid h hmem
    have hnone : ∀ p ∈ db.pets, (fun p : PetRecord => p.id == oid) p = false := by
      intro p hp
      simpa using hmem p hp
    simp [deletePets, h, deleteOne_of_none _ _ hnone]
  · intro db s
    cases h : parseObjectId s with
    | none => simp [deleteUsers, h, mkError]
    | some oid =>
        by_cases hc : (deleteOne (fun u : UserRecord => u.id == oid) db.users).2 = 1
        · simp [deleteUsers, h, hc]
        · simp [deleteUsers, h, hc, mkError]
  · intro db s
    cases h : parseObjectId s with
    | none => simp [deletePets, h, mkError]
    | some oid =>
        by_cases hc : (deleteOne (fun p : PetRecord => p.id == oid) db.pets).2 = 1
        · simp [deletePets, h, hc]
        · simp [deletePets, h, hc, mkError]

/-- C2 witness: on a store whose only records carry identifier 0, deleting
with the well-formed but unmatched identifier "5" is answered 404 on both
routes, the store unchanged, and the malformed identifier "x" is answered
with the 500 parse-failure response. -/
theorem c2_witness :
    deleteUsers dbOne "5" = (mkError 404 "User not found", dbOne) ∧
    deletePets dbOne "5" = (mkError 404 "Pet not found", dbOne) ∧
    deleteUsers dbOne "x" = (mkError 500 objectIdErrMsg, dbOne) := by
  refine ⟨?_, ?_, ?_⟩
  · exact c2_delete_not_found.2.1 dbOne "5" 5 (by decide)
      (by with_unfolding_all decide)
  · exact c2_delete_not_found.2.2.1 dbOne "5" 5 (by decide)
      (by with_unfolding_all decide)
  · exact (c2_delete_not_found.1 dbOne "x" (by decide)).1

/-- C5 counterexample: on a store whose two user records share the same
`created` timestamp (which the server clock can produce), the listing cannot
be strictly descending in `created`: adjacent records compare equal. -/
theorem c5_counterexample :
    dbTie.users.length = 2 ∧
    ¬ (getUsers dbTie).Chain' (fun a b => b.created < a.created) := by
  constructor
  · rfl
  · have he : getUsers dbTie = [userTieA, userTieB] := by with_unfolding_all decide
    rw [he]
    simp [List.chain'_cons, userTieA, userTieB]

/-- C5 (amended): for every store state, listing a collection returns a
permutation of all its records (no filtering) ordered by `created` descending
in the non-strict sense; when the `created` timestamps are pairwise distinct
the order is strictly descending. -/
theorem c5_list_sorted :
    (∀ db : DB,
        (getUsers db).Perm db.users ∧
        (getUsers db).Pairwise createdDescU ∧
        (db.users.Pairwise (fun a b => a.created ≠ b.created) →
          (getUsers db).Chain' (fun a b => b.created < a.created))) ∧
    (∀ db : DB,
        (getPets db).Perm db.pets ∧
        (getPets db).Pairwise createdDescP ∧
        (db.pets.Pairwise (fun a b => a.created ≠ b.created) →
          (getPets db).Chain' (fun a b => b.created < a.created))) := by
  constructor
  · intro db
    have hperm : (getUsers db).Perm db.users := List.perm_insertionSort _ _
    have hsort : (getUsers db).Pairwise createdDescU := List.sorted_insertionSort _ _
    refine ⟨hperm, hsort, ?_⟩
    intro hne
    have hne' : (getUsers db).Pairwise (fun a b => a.created ≠ b.created) :=
      (hperm.pairwise_iff (fun h => Ne.symm h)).mpr hne
    have hstrict : (getUsers db).Pairwise (fun a b => b.created < a.created) :=
      List.Pairwise.imp₂ (fun _ _ hle hnee => lt_of_le_of_ne hle (Ne.symm hnee))
        hsort hne'
    exact hstrict.chain'
  · intro db
    have hperm : (getPets db).Perm db.pets := List.perm_insertionSort _ _
    have hsort : (getPets db).Pairwise createdDescP := List.sorted_insertionSort _ _
    refine ⟨hperm, hsort, ?_⟩
    intro hne
    have hne' : (getPets db).Pairwise (fun a b => a.created ≠ b.created) :=
      (hperm.pairwise_iff (fun h => Ne.symm h)).mpr hne
    have hstrict : (getPets db).Pairwise (fun a b => b.created < a.created) :=
      List.Pairwise.imp₂ (fun _ _ hle hnee => lt_of_le_of_ne hle (Ne.symm hnee))
        hsort hne'
    exact hstrict.chain'

/-- C5 witness: on a store whose two user records carry distinct `created`
timestamps, the listing is strictly descending. -/
theorem c5_witness :
    dbTwo.users.Pairwise (fun a b => a.created ≠ b.created) ∧
    (getUsers dbTwo).Chain' (fun a b => b.created < a.created) :=
  ⟨by decide, (c5_list_sorted.1 dbTwo).2.2 (by decide)⟩

/-- C7: a CreatePet request whose `age` is a non-empty all-digit string whose
value is in range (for example "12") is accepted, and the stored record's
`age` is the corresponding integer value: the string is coerced to an integer
before storage. -/
theorem c7_numeric_string_age :
    ∀ (db : DB) (b : PetBody) (now : ℕ) (s : String),
      truthy b.petName = true → truthy b.species = true → truthy b.breed = true →
      truthy b.ownerName = true → truthy b.ownerPhone = true →
      b.age = .str s → s.data ≠ [] → s.data.all Char.isDigit = true →
      digitsVal s.data ≤ 50 →
      postPets db b now =
        (⟨200, true, some "Pet added successfully", none, some db.nextId⟩,
         { db with
            pets := db.pets ++ [⟨db.nextId, b.petName, b.species, b.breed,
              some ((digitsVal s.data : ℤ)), b.ownerName, b.ownerPhone, now⟩],
            nextId := db.nextId + 1 }) := by
  intro db b now s h1 h2 h3 h5 h6 hage hne hdig hle
  have h4 : truthy b.age = true := by rw [hage]; exact truthy_str_of_ne_nil s hne
  have htn : toNumber b.age = some ((digitsVal s.data : ℚ)) := by
    rw [hage]
    simpa [toNumber] using strToNumber_digits s hne hdig
  have hlt : jsLtNum b.age 0 = false := by
    simp [jsLtNum, htn]
  have hgt : jsGtNum b.age 50 = false := by
    simp [jsGtNum, htn]
    exact_mod_cast hle
  have hparse : jsParseInt b.age = some ((digitsVal s.data : ℤ)) := by
    rw [hage]
    simpa [jsParseInt] using parseIntStr_digits s hne hdig
  rw [postPets_insert db b now h1 h2 h3 h4 h5 h6 (by simp [hlt, hgt]), hparse]

/-- C7 witness: the age string "12" is accepted and stored as the integer
12. -/
theorem c7_witness :
    postPets emptyDB (rexBody (.str "12")) 9 =
      (⟨200, true, some "Pet added successfully", none, some 0⟩,
       ⟨[], [⟨0, .str "Rex", .str "Dog", .str "Lab", some 12, .str "Ann",
         .str "555", 9⟩], 1⟩) := by
  exact c7_numeric_string_age emptyDB (rexBody (.str "12")) 9 "12" (by decide)
    (by decide) (by decide) (by decide) (by decide) rfl (by decide) (by decide)
    (by decide)

/-- C9 counterexample: at age 10⁻⁷ the request passes validation, but
JavaScript renders the number exponentially as "1e-7", so `parseInt` stores
its leading mantissa digit 1 — not the integer truncation 0 of the supplied
value — refuting the claim that the stored age is always that truncation. -/
theorem c9_counterexample :
    postPets emptyDB (rexBody (.num (some (1 / 10000000)))) 2 =
      (⟨200, true, some "Pet added successfully", none, some 0⟩,
       ⟨[], [⟨0, .str "Rex", .str "Dog", .str "Lab", some 1, .str "Ann",
         .str "555", 2⟩], 1⟩) ∧
    jsTruncToInt (1 / 10000000) = 0 ∧
    (some (1 : ℤ) : Option ℤ) ≠ some (jsTruncToInt (1 / 10000000)) := by
  with_unfolding_all decide

/-- C9 (amended): a CreatePet request whose `age` is a non-integer number
strictly inside the range passes validation and is accepted; when the value
is at least 10⁻⁶ — so that JavaScript renders it in plain decimal — the
stored `age` is the integer truncation of the supplied value (7.9 is stored
as 7), and that truncation differs from the supplied value whenever the
value is not an integer; a positive value below 10⁻⁶ is rendered
exponentially instead and `parseInt` stores the integer part of its decimal
mantissa (10⁻⁷ is stored as 1). -/
theorem c9_fractional_age_truncated :
    (∀ (db : DB) (b : PetBody) (now : ℕ) (q : ℚ),
        truthy b.petName = true → truthy b.species = true → truthy b.breed = true →
        truthy b.ownerName = true → truthy b.ownerPhone = true →
        b.age = .num (some q) → 1 / 1000000 ≤ q → q < 50 →
        postPets db b now =
          (⟨200, true, some "Pet added successfully", none, some db.nextId⟩,
           { db with
              pets := db.pets ++ [⟨db.nextId, b.petName, b.species, b.breed,
                some (jsTruncToInt q), b.ownerName, b.ownerPhone, now⟩],
              nextId := db.nextId + 1 })) ∧
    (∀ (db : DB) (b : PetBody) (now : ℕ) (q : ℚ),
        truthy b.petName = true → truthy b.species = true → truthy b.breed = true →
        truthy b.ownerName = true → truthy b.ownerPhone = true →
        b.age = .num (some q) → 0 < q → q < 1 / 1000000 →
        postPets db b now =
          (⟨200, true, some "Pet added successfully", none, some db.nextId⟩,
           { db with
              pets := db.pets ++ [⟨db.nextId, b.petName, b.species, b.breed,
                some (leadingDigit q), b.ownerName, b.ownerPhone, now⟩],
              nextId := db.nextId + 1 })) ∧
    (∀ q : ℚ, q.den ≠ 1 → ((jsTruncToInt q : ℚ) ≠ q)) := by
  refine ⟨?_, ?_, ?_⟩
  · intro db b now q h1 h2 h3 h5 h6 hage h6q h50
    have h0 : 0 < q := lt_of_lt_of_le (by norm_num) h6q
    have h4 : truthy b.age = true := by
      rw [hage]
      simpa [truthy] using ne_of_gt h0
    have htn : toNumber b.age = some q := by rw [hage]; rfl
    have hlt : jsLtNum b.age 0 = false := by
      simp [jsLtNum, htn, not_lt]
      exact le_of_lt h0
    have hgt : jsGtNum b.age 50 = false := by
      simp [jsGtNum, htn, not_lt]
      exact le_of_lt h50
    have hnum : jsParseIntNum q = jsTruncToInt q := by
      unfold jsParseIntNum jsParseIntPos
      rw [if_neg (ne_of_gt h0), if_neg (not_lt.mpr (le_of_lt h0)),
        if_neg (by push_neg; exact ⟨h6q, lt_trans h50 (by norm_num)⟩)]
    have hparse : jsParseInt b.age = some (jsTruncToInt q) := by
      rw [hage]
      show some (jsParseIntNum q) = some (jsTruncToInt q)
      rw [hnum]
    rw [postPets_insert db b now h1 h2 h3 h4 h5 h6 (by simp [hlt, hgt]), hparse]
  · intro db b now q h1 h2 h3 h5 h6 hage h0 hq6
    have h4 : truthy b.age = true := by
      rw [hage]
      simpa [truthy] using ne_of_gt h0
    have htn : toNumber b.age = some q := by rw [hage]; rfl
    have hlt : jsLtNum b.age 0 = false := by
      simp [jsLtNum, htn, not_lt]
      exact le_of_lt h0
    have hgt : jsGtNum b.age 50 = false := by
      simp [jsGtNum, htn, not_lt]
      exact le_of_lt (lt_trans hq6 (by norm_num))
    have hnum : jsParseIntNum q = leadingDigit q := by
      unfold jsParseIntNum jsParseIntPos
      rw [if_neg (ne_of_gt h0), if_neg (not_lt.mpr (le_of_lt h0)),
        if_pos (Or.inl hq6)]
    have hparse : jsParseInt b.age = some (leadingDigit q) := by
      rw [hage]
      show some (jsParseIntNum q) = some (leadingDigit q)
      rw [hnum]
    rw [postPets_insert db b now h1 h2 h3 h4 h5 h6 (by simp [hlt, hgt]), hparse]
  · intro q hden h
    apply hden
    have hint : ((jsTruncToInt q : ℚ)).den = 1 := Rat.den_intCast _
    rwa [h] at hint

/-- C9 witness: the age 7.9 (at least 10⁻⁶, plain decimal rendering) is
accepted and stored as the integer 7, which differs from the supplied value;
the age 3·10⁻⁷ (below 10⁻⁶, exponential rendering) is accepted and stored as
its leading mantissa digit 3. -/
theorem c9_witness :
    postPets emptyDB (rexBody (.num (some (79 / 10)))) 4 =
      (⟨200, true, some "Pet added successfully", none, some 0⟩,
       ⟨[], [⟨0, .str "Rex", .str "Dog", .str "Lab", some (jsTruncToInt (79 / 10)),
         .str "Ann", .str "555", 4⟩], 1⟩) ∧
    jsTruncToInt (79 / 10) = 7 ∧
    ((jsTruncToInt (79 / 10) : ℚ) ≠ (79 / 10 : ℚ)) ∧
    postPets emptyDB (rexBody (.num (some (3 / 10000000)))) 4 =
      (⟨200, true, some "Pet added successfully", none, some 0⟩,
       ⟨[], [⟨0, .str "Rex", .str "Dog", .str "Lab", some (leadingDigit (3 / 10000000)),
         .str "Ann", .str "555", 4⟩], 1⟩) ∧
    leadingDigit (3 / 10000000) = 3 := by
  refine ⟨?_, by with_unfolding_all decide, ?_, ?_, by with_unfolding_all decide⟩
  · exact c9_fractional_age_truncated.1 emptyDB (rexBody (.num (some (79 / 10)))) 4
      (79 / 10) (by decide) (by decide) (by decide) (by decide) (by decide) rfl
      (by with_unfolding_all decide) (by with_unfolding_all decide)
  · exact c9_fractional_age_truncated.2.2 (79 / 10) (by with_unfolding_all decide)
  · exact c9_fractional_age_truncated.2.1 emptyDB (rexBody (.num (some (3 / 10000000))))
      4 (3 / 10000000) (by decide) (by decide) (by decide) (by decide) (by decide) rfl
      (by with_unfolding_all decide) (by with_unfolding_all decide)

/-- C8: `created` is server-assigned at insert time: a client-supplied
`created` body field never influences the handlers, a successful create
stores exactly the server clock value in `created`, and across every API
operation a stored record either survives unchanged (so its `created` is
immutable — no update operation exists) or is the one record freshly inserted
with the server-assigned `created`. -/
theorem c8_created_server_assigned :
    (∀ (db : DB) (b : UserBody) (now : ℕ) (c : JSValue),
        postUsers db { b with created := c } now = postUsers db b now) ∧
    (∀ (db : DB) (b : PetBody) (now : ℕ) (c : JSValue),
        postPets db { b with created := c } now = postPets db b now) ∧
    (∀ (db : DB) (b : UserBody) (now : ℕ),
        (postUsers db b now).1.success = true →
        (postUsers db b now).2.users =
          db.users ++ [⟨db.nextId, b.name, b.email, b.phone, b.address, now⟩]) ∧
    (∀ (db : DB) (b : PetBody) (now : ℕ),
        (postPets db b now).1.success = true →
        (postPets db b now).2.pets =
          db.pets ++ [⟨db.nextId, b.petName, b.species, b.breed, jsParseInt b.age,
            b.ownerName, b.ownerPhone, now⟩]) ∧
    (∀ (db : DB) (op : Op),
        (∀ u ∈ (applyOp db op).users,
          u ∈ db.users ∨ ∃ bb nn, op = .addUser bb nn ∧ u.created = nn) ∧
        (∀ p ∈ (applyOp db op).pets,
          p ∈ db.pets ∨ ∃ bb nn, op = .addPet bb nn ∧ p.created = nn)) := by
  refine ⟨fun db b now c => rfl, fun db b now c => rfl, ?_, ?_, ?_⟩
  · intro db b now h
    rw [(postUsers_success_spec db b now h).2.2.2.2]
  · intro db b now h
    rw [(postPets_success_spec db b now h).2.2.2.2.2.2.2]
  · intro db op
    cases op with
    | status p => exact ⟨fun u hu => Or.inl hu, fun p hp => Or.inl hp⟩
    | listUsers => exact ⟨fun u hu => Or.inl hu, fun p hp => Or.inl hp⟩
    | listPets => exact ⟨fun u hu => Or.inl hu, fun p hp => Or.inl hp⟩
    | addUser bb nn =>
        constructor
        · intro u hu
          rcases postUsers_state_cases db bb nn with hst | hst
          · rw [show applyOp db (.addUser bb nn) = (postUsers db bb nn).2 from rfl,
              hst] at hu
            exact Or.inl hu
          · rw [show applyOp db (.addUser bb nn) = (postUsers db bb nn).2 from rfl,
              hst] at hu
            rcases List.mem_append.mp hu with hu | hu
            · exact Or.inl hu
            · rcases List.mem_singleton.mp hu with rfl
              exact Or.inr ⟨bb, nn, rfl, rfl⟩
        · intro p hp
          rcases postUsers_state_cases db bb nn with hst | hst
          · rw [show applyOp db (.addUser bb nn) = (postUsers db bb nn).2 from rfl,
              hst] at hp
            exact Or.inl hp
          · rw [show applyOp db (.addUser bb nn) = (postUsers db bb nn).2 from rfl,
              hst] at hp
            exact Or.inl hp
    | addPet bb nn =>
        constructor
        · intro u hu
          rcases postPets_state_cases db bb nn with hst | hst
          · rw [show applyOp db (.addPet bb nn) = (postPets db bb nn).2 from rfl,
              hst] at hu
            exact Or.inl hu
          · rw [show applyOp db (.addPet bb nn) = (postPets db bb nn).2 from rfl,
              hst] at hu
            exact Or.inl hu
        · intro p hp
          rcases postPets_state_cases db bb nn with hst | hst
          · rw [show applyOp db (.addPet bb nn) = (postPets db bb nn).2 from rfl,
              hst] at hp
            exact Or.inl hp
          · rw [show applyOp db (.addPet bb nn) = (postPets db bb nn).2 from rfl,
              hst] at hp
            rcases List.mem_append.mp hp with hp | hp
            · exact Or.inl hp
            · rcases List.mem_singleton.mp hp with rfl
              exact Or.inr ⟨bb, nn, rfl, rfl⟩
    | removeUser s =>
        refine ⟨fun u hu => Or.inl ((deleteUsers_state db s).2 u hu), fun p hp => Or.inl ?_⟩
        rwa [show applyOp db (.removeUser s) = (deleteUsers db s).2 from rfl,
          (deleteUsers_state db s).1] at hp
    | removePet s =>
        refine ⟨fun u hu => Or.inl ?_, fun p hp => Or.inl ((deletePets_state db s).2 p hp)⟩
        rwa [show applyOp db (.removePet s) = (deletePets db s).2 from rfl,
          (deletePets_state db s).1] at hu

/-- C8 witness: a concrete successful create stores the server clock value 7
in `created` (the request body carried no `created`), and a create whose body
carries a client `created` value behaves identically to one without it. -/
theorem c8_witness :
    (postUsers emptyDB annBody 7).1.success = true ∧
    (postUsers emptyDB annBody 7).2.users =
      emptyDB.users ++ [⟨emptyDB.nextId, annBody.name, annBody.email, annBody.phone,
        annBody.address, 7⟩] ∧
    postUsers emptyDB { annBody with created := .str "1999" } 7 =
      postUsers emptyDB annBody 7 := by
  have hs : (postUsers emptyDB annBody 7).1.success = true := by
    with_unfolding_all decide
  exact ⟨hs, c8_created_server_assigned.2.2.1 emptyDB annBody 7 hs,
    c8_created_server_assigned.1 emptyDB annBody 7 (.str "1999")⟩

/-- C10: CreatePet has no duplicate check: an identical valid request
submitted twice succeeds both times and inserts two records with distinct
store-assigned identifiers (the fresh-id counter values). -/
theorem c10_no_uniqueness_check :
    ∀ (db : DB) (b : PetBody) (now1 now2 : ℕ),
      (postPets db b now1).1.success = true →
      (postPets (postPets db b now1).2 b now2).1.success = true ∧
      (postPets (postPets db b now1).2 b now2).2.pets.length = db.pets.length + 2 ∧
      (postPets db b now1).1.insertedId = some db.nextId ∧
      (postPets (postPets db b now1).2 b now2).1.insertedId = some (db.nextId + 1) ∧
      (postPets db b now1).1.insertedId ≠
        (postPets (postPets db b now1).2 b now2).1.insertedId := by
  intro db b now1 now2 h
  obtain ⟨h1, h2, h3, h4, h5, h6, hr, heq⟩ := postPets_success_spec db b now1 h
  rw [heq]
  rw [postPets_insert _ b now2 h1 h2 h3 h4 h5 h6 hr]
  refine ⟨rfl, by simp, rfl, rfl, ?_⟩
  simp only [ne_eq, Option.some.injEq]
  omega

/-- C10 witness: the identical valid pet request inserted twice into the
empty store succeeds twice with identifiers 0 and 1. -/
theorem c10_witness :
    (postPets (postPets emptyDB (rexBody (.num (some 5))) 1).2
        (rexBody (.num (some 5))) 2).1.success = true ∧
    (postPets (postPets emptyDB (rexBody (.num (some 5))) 1).2
        (rexBody (.num (some 5))) 2).2.pets.length = emptyDB.pets.length + 2 ∧
    (postPets emptyDB (rexBody (.num (some 5))) 1).1.insertedId = some emptyDB.nextId ∧
    (postPets (postPets emptyDB (rexBody (.num (some 5))) 1).2
        (rexBody (.num (some 5))) 2).1.insertedId = some (emptyDB.nextId + 1) ∧
    (postPets emptyDB (rexBody (.num (some 5))) 1).1.insertedId ≠
      (postPets (postPets emptyDB (rexBody (.num (some 5))) 1).2
        (rexBody (.num (some 5))) 2).1.insertedId := by
  exact c10_no_uniqueness_check emptyDB (rexBody (.num (some 5))) 1 2
    (by with_unfolding_all decide)

end Server
